import Mathlib

/-
Shallow embedding of `src/Primary.py` (BantayKlima, a Streamlit dashboard for
Philippine weather).  Pure helpers are translated as Lean functions over ℚ
(Python floats at the values in question are exact); the fetch functions take
the abstract outcome of their HTTP request (`Except String J`: an exception
message covers a raised request, a timeout, a non-2xx status turned into an
exception by raise_for_status, or malformed JSON) and return the pair
(result, list of st.error messages emitted).  JSON objects are records whose
fields are `Option`-valued: `none` models an absent key, `.get k default`
becomes `Option.getD`, and direct subscripting that can raise KeyError becomes
an `Except`.
-/

namespace BantayKlima

/-! ## Wind direction (Primary.py lines 123-128) -/

/-- The 16 compass labels of `format_wind_direction`. -/
def directions : List String :=
  ["N", "NNE", "NE", "ENE", "E", "ESE", "SE", "SSE",
   "S", "SSW", "SW", "WSW", "W", "WNW", "NW", "NNW"]

/-- Python `int()` on a float/rational truncates toward zero. -/
def pyInt (q : ℚ) : ℤ := if 0 ≤ q then ⌊q⌋ else -⌊-q⌋

/-- The index computed by `format_wind_direction`:
`int((degrees + 11.25) / 22.5) % 16` (Python `%` on a positive modulus agrees
with `Int.emod`). -/
def windIndex (degrees : ℚ) : ℤ := pyInt ((degrees + 11.25) / 22.5) % 16

/-- `format_wind_direction(degrees)` from Primary.py.  The source indexes
`directions[idx]`; the index is always in range (proved below), so `getD`
with an arbitrary default is faithful. -/
def format_wind_direction (degrees : ℚ) : String :=
  directions.getD (windIndex degrees).toNat ""

/-! ## Air quality status (Primary.py lines 107-121) -/

/-- `get_aqi_status(aqi_index)`: label and icon for the US EPA index. -/
def get_aqi_status (aqi_index : ℚ) : String × String :=
  if aqi_index = 1 then ("Good", "🟢")
  else if aqi_index = 2 then ("Moderate", "🟡")
  else if aqi_index = 3 then ("Unhealthy for Sensitive", "🟠")
  else if aqi_index = 4 then ("Unhealthy", "🔴")
  else if aqi_index = 5 then ("Very Unhealthy", "🟣")
  else if aqi_index = 6 then ("Hazardous", "🟤")
  else ("Unknown", "⚪")

/-! ## Fetch functions (Primary.py lines 131-199) -/

/-- One geocoding result object: a JSON dict whose keys may be absent. -/
structure GeoResult where
  name : Option String
  admin1 : Option String
  latitude : Option ℚ
  longitude : Option ℚ
deriving DecidableEq, Repr

/-- The JSON body of a geocoding response; the `results` key may be absent. -/
structure GeocodeResp where
  results : Option (List GeoResult)
deriving DecidableEq, Repr

/-- `geocode(query)` (lines 132-144): on success returns
`r.json().get("results", [])`; on any exception emits
`st.error(f"Geocoding error: {e}")` and returns `[]`. -/
def geocode (resp : Except String GeocodeResp) : List GeoResult × List String :=
  match resp with
  | .ok j => (j.results.getD [], [])
  | .error e => ([], ["Geocoding error: " ++ e])

/-- The `condition` sub-object of a weather payload. -/
structure Condition where
  text : Option String
deriving DecidableEq, Repr

/-- The `air_quality` sub-object of a current-weather payload. -/
structure AirQuality where
  us_epa_index : Option ℚ
  pm2_5 : Option ℚ
  pm10 : Option ℚ
  co : Option ℚ
deriving DecidableEq, Repr

/-- The `current` sub-object of a WeatherAPI response. -/
structure Current where
  temp_c : Option ℚ
  feelslike_c : Option ℚ
  humidity : Option ℚ
  wind_degree : Option ℚ
  wind_kph : Option ℚ
  precip_mm : Option ℚ
  cloud : Option ℚ
  vis_km : Option ℚ
  pressure_mb : Option ℚ
  uv : Option ℚ
  condition : Option Condition
  air_quality : Option AirQuality
deriving DecidableEq, Repr

/-- The `location` sub-object of a WeatherAPI response. -/
structure LocationInfo where
  name : Option String
  region : Option String
  localtime : Option String
deriving DecidableEq, Repr

/-- The JSON body of a WeatherAPI `current.json` response. -/
structure WeatherResp where
  location : Option LocationInfo
  current : Option Current
deriving DecidableEq, Repr

/-- `get_weather_current(lat, lon)` (lines 146-163): on success returns the
parsed JSON; on any exception emits `st.error(f"Weather API error: {e}")`
and returns `None`. -/
def get_weather_current (resp : Except String WeatherResp) :
    Option WeatherResp × List String :=
  match resp with
  | .ok j => (some j, [])
  | .error e => (none, ["Weather API error: " ++ e])

/-- One hourly record of a forecast day. -/
structure HourRow where
  time : Option String
  temp_c : Option ℚ
  feelslike_c : Option ℚ
  humidity : Option ℚ
  precip_mm : Option ℚ
  wind_kph : Option ℚ
  condition : Option Condition
  chance_of_rain : Option ℚ
  uv : Option ℚ
deriving DecidableEq, Repr

/-- One entry of the `forecastday` array. -/
structure ForecastDay where
  date : Option String
  hour : Option (List HourRow)
deriving DecidableEq, Repr

/-- The `forecast` sub-object of a `forecast.json` response. -/
structure Forecast where
  forecastday : Option (List ForecastDay)
deriving DecidableEq, Repr

/-- The JSON body of a WeatherAPI `forecast.json` response.  The fields model
the keys the program reads; Python truthiness of the dict is modelled by
`ForecastResp.truthy` below. -/
structure ForecastResp where
  location : Option LocationInfo
  forecast : Option Forecast
deriving DecidableEq, Repr

/-- Python truthiness of the response dict: truthy iff it has at least one
key (of the keys the program can observe). -/
def ForecastResp.truthy (r : ForecastResp) : Bool :=
  r.location.isSome || r.forecast.isSome

/-- `get_weather_forecast(lat, lon, days)` (lines 165-184): on success returns
the parsed JSON; on any exception emits `st.error(f"Weather API error: {e}")`
and returns `None`.  The `days` argument only shapes the HTTP request, which
is abstracted into `resp`. -/
def get_weather_forecast (resp : Except String ForecastResp) :
    Option ForecastResp × List String :=
  match resp with
  | .ok j => (some j, [])
  | .error e => (none, ["Weather API error: " ++ e])

/-- One GeoJSON feature of the GDACS typhoon feed (passed through opaquely). -/
structure TyphoonFeature where
  tag : Nat
deriving DecidableEq, Repr

/-- The JSON body of the GDACS feed; the `features` key may be absent. -/
structure TyphoonResp where
  features : Option (List TyphoonFeature)
deriving DecidableEq, Repr

/-- `fetch_typhoon_tracks()` (lines 186-199): on success returns
`data.get("features", [])` (the `if features else []` branch is the
identity on lists); on any exception returns `[]` WITHOUT emitting any
message — its handler is bare `return []`. -/
def fetch_typhoon_tracks (resp : Except String TyphoonResp) :
    List TyphoonFeature × List String :=
  match resp with
  | .ok j =>
    let features := j.features.getD []
    (if features.isEmpty then [] else features, [])
  | .error _e => ([], [])

/-! ## API-key configuration (Primary.py lines 18-55) -/

/-- The contents of `.streamlit/secrets.toml` as seen through `st.secrets`:
each key may be absent (its access raises KeyError).  The secrets file itself
may be absent (`FileNotFoundError`), modelled by `Option SecretsFile` below. -/
structure SecretsFile where
  weatherapi_key : Option String
  openweather_key : Option String
deriving DecidableEq, Repr

/-- Outcome of the configuration block: either both module-level key variables
are bound, or `st.stop()` halted the page. -/
inductive ConfigOutcome where
  | keys (w o : String)
  | halted
deriving DecidableEq, Repr

/-- Python truthiness of `os.getenv`'s result: `None` and `""` are falsy. -/
def truthyOpt (s : Option String) : Bool :=
  match s with
  | none => false
  | some t => t ≠ ""

/-- The `except` branch: both keys are re-read from the environment, and
`if not WEATHERAPI_KEY or not OPENWEATHER_KEY` shows an error and calls
`st.stop()`. -/
def envFallback (envW envO : Option String) : ConfigOutcome :=
  if truthyOpt envW && truthyOpt envO then
    ConfigOutcome.keys (envW.getD "") (envO.getD "")
  else ConfigOutcome.halted

/-- The configuration block: read `st.secrets["WEATHERAPI_KEY"]` then
`st.secrets["OPENWEATHER_KEY"]`; if either access raises (missing file or
missing key) fall back to `envFallback`.  Note the falsy-key check lives only
in the `except` branch: keys found in secrets are used unchecked. -/
def configure (secrets : Option SecretsFile) (envW envO : Option String) :
    ConfigOutcome :=
  match secrets with
  | some sec =>
    match sec.weatherapi_key, sec.openweather_key with
    | some w, some o => ConfigOutcome.keys w o
    | some _, none => envFallback envW envO
    | none, _ => envFallback envW envO
  | none => envFallback envW envO

/-- Whether the `try` block of the configuration raises, sending control to
the environment fallback. -/
def secretsLookupFails (secrets : Option SecretsFile) : Bool :=
  match secrets with
  | none => true
  | some sec => sec.weatherapi_key.isNone || sec.openweather_key.isNone

/-! ## Sidebar geocoding branch (Primary.py lines 211-225) -/

/-- Default coordinates used when geocoding finds nothing (and as the
`st.number_input` defaults). -/
def defaultLat : ℚ := 14.5995

/-- Default longitude, paired with `defaultLat`. -/
def defaultLon : ℚ := 120.9842

/-- `[f"{r.get('name', '')}, {r.get('admin1', '')}" for r in results]`. -/
def location_options (results : List GeoResult) : List String :=
  results.map (fun r => r.name.getD "" ++ ", " ++ r.admin1.getD "")

/-- Outcome of the sidebar geocoding branch for a non-empty search string:
either `lat`/`lon` were assigned (with the list of st.error/st.success
messages shown), or the branch left them unassigned (`if selected:` false),
or a Python exception escaped. -/
inductive GeoBranchResult where
  | assigned (lat lon : ℚ) (msgs : List String)
  | unassigned
  | raised (err : String)
deriving DecidableEq, Repr

/-- `results[idx]["latitude"]`, `results[idx]["longitude"]`: direct
subscripting, raising KeyError when the key is absent. -/
def lookupLatLon (r : GeoResult) : Except String (ℚ × ℚ) :=
  match r.latitude with
  | none => Except.error "KeyError: latitude"
  | some la =>
    match r.longitude with
    | none => Except.error "KeyError: longitude"
    | some lo => Except.ok (la, lo)

/-- The `if place:` sidebar branch (lines 211-225): call `geocode`; if the
result list is non-empty let the user pick an option (`selected` is the
chosen label) and read the coordinates by direct subscripting at
`location_options.index(selected)`; otherwise show
`st.error("❌ Location not found")` and fall back to the default pair. -/
def sidebar_geocode_branch (results : List GeoResult) (selected : String) :
    GeoBranchResult :=
  if results.isEmpty then
    GeoBranchResult.assigned defaultLat defaultLon ["❌ Location not found"]
  else if selected = "" then GeoBranchResult.unassigned
  else
    match (location_options results).indexOf? selected with
    | none => GeoBranchResult.raised "ValueError"
    | some idx =>
      match results.get? idx with
      | none => GeoBranchResult.raised "IndexError"
      | some r =>
        match lookupLatLon r with
        | Except.error e => GeoBranchResult.raised e
        | Except.ok (la, lo) =>
          GeoBranchResult.assigned la lo ["✓ " ++ selected]

/-! ## Response caching (`@st.cache_data` decorators, Primary.py lines 131-199) -/

/-- TTL passed to `@st.cache_data` on `geocode` (line 131). -/
def geocode_ttl : ℕ := 300

/-- TTL passed to `@st.cache_data` on `get_weather_current` (line 146). -/
def get_weather_current_ttl : ℕ := 300

/-- TTL passed to `@st.cache_data` on `get_weather_forecast` (line 165). -/
def get_weather_forecast_ttl : ℕ := 300

/-- TTL passed to `@st.cache_data` on `fetch_typhoon_tracks` (line 186). -/
def fetch_typhoon_tracks_ttl : ℕ := 3600

/-- A cache entry: the memoized value and the time it was stored. -/
structure CacheEntry (α : Type) where
  value : α
  storedAt : ℕ
deriving DecidableEq, Repr

/-- Modelled from the spec: the `st.cache_data` memoization itself is
framework code absent from `src/`.  The spec defines a TTL cache as "a cache
entry that is considered valid only within a fixed time window after
creation, after which it is treated as absent", keyed by call arguments. -/
def Cache (κ α : Type) := κ → Option (CacheEntry α)

/-- Modelled from the spec: one call through the memoization wrapper at time
`now` with arguments `k`.  Returns the value delivered to the caller, whether
a network fetch was issued, and the new cache state. -/
def cachedCall {κ α : Type} [DecidableEq κ] (ttl : ℕ) (fetch : κ → α)
    (c : Cache κ α) (k : κ) (now : ℕ) : α × Bool × Cache κ α :=
  match c k with
  | some e =>
    if now - e.storedAt < ttl then (e.value, false, c)
    else
      (fetch k, true,
       fun k2 => if k2 = k then some ⟨fetch k, now⟩ else c k2)
  | none =>
    (fetch k, true,
     fun k2 => if k2 = k then some ⟨fetch k, now⟩ else c k2)

/-! ## Hourly forecast rendering (Primary.py lines 376-400) -/

/-- One row appended to `hourly_data`: a dict literal with these nine keys,
whose values come from `.get` lookups on the hour record (so each may be
`None`). -/
structure HourlyRecord where
  time : Option String
  temp_c : Option ℚ
  feelslike_c : Option ℚ
  humidity : Option ℚ
  precip_mm : Option ℚ
  wind_kph : Option ℚ
  condition : Option String
  chance_of_rain : Option ℚ
  uv : Option ℚ
deriving DecidableEq, Repr

/-- The nested loop `for day in forecast: for hour in day.get("hour", []):
hourly_data.append({...})`. -/
def hourly_rows (forecast : List ForecastDay) : List HourlyRecord :=
  (forecast.map (fun day =>
    (day.hour.getD []).map (fun hour =>
      { time := hour.time
        temp_c := hour.temp_c
        feelslike_c := hour.feelslike_c
        humidity := hour.humidity
        precip_mm := hour.precip_mm
        wind_kph := hour.wind_kph
        condition := (hour.condition.getD ⟨none⟩).text
        chance_of_rain := hour.chance_of_rain
        uv := hour.uv }))).flatten

/-- `pd.DataFrame(rows)["time"]`: a DataFrame built from a non-empty list of
these dict literals has a `time` column; built from the empty list it has NO
columns, and the column access raises `KeyError: 'time'`. -/
def df_time_column (rows : List HourlyRecord) :
    Except String (List (Option String)) :=
  if rows.isEmpty then Except.error "KeyError: time"
  else Except.ok (rows.map (fun r => r.time))

/-- The `elif forecast_type == "Hourly":` body (lines 376-400): guard
`if weather_data:`, read `weather_data.get("forecast", {}).get("forecastday",
[])`, build `hourly_data`, take the first 48 rows, build the DataFrame and
evaluate `pd.to_datetime(df["time"])`.  Returns the rows rendered, `none`
when the guard skipped the body, or the uncaught Python exception. -/
def render_hourly (weather_data : Option ForecastResp) :
    Except String (Option (List HourlyRecord)) :=
  match weather_data with
  | none => Except.ok none
  | some wd =>
    if wd.truthy then
      let forecast := (wd.forecast.map (fun f => f.forecastday.getD [])).getD []
      let rows := (hourly_rows forecast).take 48
      match df_time_column rows with
      | Except.error e => Except.error e
      | Except.ok _ => Except.ok (some rows)
    else Except.ok none

/-- The current-weather metric lookups (lines 298-374): each display value
comes from `.get` with a default — `'N/A'` for the metric placeholders and
`0` for the air-quality sub-indices — so a missing field yields the
documented default rather than an exception.  `current.get('temp_c', 'N/A')`
is modelled by its two outcomes: the number, or the placeholder string. -/
def metric_display (v : Option ℚ) : ℚ ⊕ String :=
  match v with
  | some q => Sum.inl q
  | none => Sum.inr "N/A"

/-- `aqi.get('pm2_5', 0)` and friends: a missing air-quality sub-index reads
as `0`. -/
def aqi_sub_display (v : Option ℚ) : ℚ := v.getD 0

/-! ## Helper lemmas -/

/-- When `d` lies in the `k`-th sector (for nonnegative `k`), the truncated
division computes `k`. -/
theorem floor_sector (d : ℚ) (k : ℤ) (hk : 0 ≤ k)
    (h1 : (k : ℚ) * 22.5 - 11.25 ≤ d) (h2 : d < (k : ℚ) * 22.5 + 11.25) :
    pyInt ((d + 11.25) / 22.5) = k := by
  have h0 : (0 : ℚ) ≤ (d + 11.25) / 22.5 := by
    rw [le_div_iff₀ (by norm_num : (0:ℚ) < 22.5)]
    have : (0 : ℚ) ≤ (k : ℚ) * 22.5 := by positivity
    linarith
  have hfl : ⌊(d + 11.25) / 22.5⌋ = k := by
    rw [Int.floor_eq_iff]
    constructor
    · rw [le_div_iff₀ (by norm_num : (0:ℚ) < 22.5)]
      linarith
    · rw [div_lt_iff₀ (by norm_num : (0:ℚ) < 22.5)]
      linarith
  rw [pyInt, if_pos h0, hfl]

/-- An in-range `getD` returns an element of the list. -/
theorem getD_mem_of_lt (l : List String) (n : ℕ) (d : String)
    (h : n < l.length) : l.getD n d ∈ l := by
  rw [List.getD_eq_getElem l d h]
  exact List.getElem_mem h

/-! ## Claim theorems -/

/-- C1: each external retrieval function, when its HTTP request raises,
times out, returns a non-2xx status, or yields malformed JSON (all are
exceptions caught by the handler, modelled by `Except.error e`), returns its
configured default — `[]` for `geocode` and `fetch_typhoon_tracks`, `None`
for `get_weather_current` and `get_weather_forecast` — and, being a total
function on `Except`, never propagates the exception. -/
theorem C1_fetch_defaults_on_failure (e : String) :
    (geocode (Except.error e)).1 = [] ∧
    (get_weather_current (Except.error e)).1 = none ∧
    (get_weather_forecast (Except.error e)).1 = none ∧
    (fetch_typhoon_tracks (Except.error e)).1 = [] :=
  ⟨rfl, rfl, rfl, rfl⟩

/-- C2: `format_wind_direction` is correct at all 16 sector boundaries:
every degree value in [348.75, 360] (so in particular 360) maps to "N",
every value in [0, 11.24] (so in particular 0) maps to "N", and each other
boundary angle k·22.5 (k = 1..15) maps to the k-th label of the 16-label
compass list. -/
theorem C2_wind_boundary_angles :
    (∀ d : ℚ, 348.75 ≤ d → d ≤ 360 → format_wind_direction d = "N") ∧
    (∀ d : ℚ, 0 ≤ d → d ≤ 11.24 → format_wind_direction d = "N") ∧
    (∀ k : ℕ, 1 ≤ k → k ≤ 15 →
      format_wind_direction ((k : ℚ) * 22.5) = directions.getD k "") := by
  refine ⟨?_, ?_, ?_⟩
  · intro d h1 h2
    have h := floor_sector d 16 (by norm_num) (by push_cast; linarith)
      (by push_cast; linarith)
    rw [format_wind_direction, windIndex, h]
    rfl
  · intro d h1 h2
    have h := floor_sector d 0 le_rfl (by push_cast; linarith)
      (by push_cast; linarith)
    rw [format_wind_direction, windIndex, h]
    rfl
  · intro k hk1 hk2
    have h := floor_sector ((k : ℚ) * 22.5) (k : ℤ) (by positivity)
      (by push_cast; linarith) (by push_cast; linarith)
    rw [format_wind_direction, windIndex, h]
    have hmod : ((k : ℤ) % 16) = (k : ℤ) := by omega
    rw [hmod]
    simp

/-- Witness for C2 at the concrete inputs 360 and 0. -/
theorem C2_wind_boundary_angles_witness :
    format_wind_direction 360 = "N" ∧ format_wind_direction 0 = "N" :=
  ⟨C2_wind_boundary_angles.1 360 (by norm_num) (by norm_num),
   C2_wind_boundary_angles.2.1 0 (by norm_num) (by norm_num)⟩

/-- C3: `get_aqi_status` maps each defined US EPA index 1..6 to its
documented label, and every value outside {1,...,6} to "Unknown". -/
theorem C3_aqi_label_mapping (x : ℚ) :
    (x = 1 → (get_aqi_status x).1 = "Good") ∧
    (x = 2 → (get_aqi_status x).1 = "Moderate") ∧
    (x = 3 → (get_aqi_status x).1 = "Unhealthy for Sensitive") ∧
    (x = 4 → (get_aqi_status x).1 = "Unhealthy") ∧
    (x = 5 → (get_aqi_status x).1 = "Very Unhealthy") ∧
    (x = 6 → (get_aqi_status x).1 = "Hazardous") ∧
    (x ≠ 1 ∧ x ≠ 2 ∧ x ≠ 3 ∧ x ≠ 4 ∧ x ≠ 5 ∧ x ≠ 6 →
      (get_aqi_status x).1 = "Unknown") := by
  unfold get_aqi_status
  split_ifs with h1 h2 h3 h4 h5 h6 <;> simp_all

/-- Witness for C3 at the concrete out-of-range input 7. -/
theorem C3_aqi_label_mapping_witness : (get_aqi_status 7).1 = "Unknown" :=
  (C3_aqi_label_mapping 7).2.2.2.2.2.2
    (by norm_num)

/-- C4: when geocoding returns no matching result, the sidebar branch
assigns the default coordinate pair (14.5995, 120.9842), shows the
"Location not found" error, and raises no exception — rendering continues
with those coordinates. -/
theorem C4_geocode_not_found_fallback (results : List GeoResult)
    (selected : String) (h : results = []) :
    sidebar_geocode_branch results selected =
      GeoBranchResult.assigned 14.5995 120.9842 ["❌ Location not found"] ∧
    ∀ e, sidebar_geocode_branch results selected ≠ GeoBranchResult.raised e := by
  subst h
  exact ⟨rfl, fun e hc => GeoBranchResult.noConfusion hc⟩

/-- Witness for C4 at a concrete empty result list. -/
theorem C4_geocode_not_found_fallback_witness :
    sidebar_geocode_branch [] "Cebu" =
      GeoBranchResult.assigned 14.5995 120.9842 ["❌ Location not found"] :=
  (C4_geocode_not_found_fallback [] "Cebu" rfl).1

/-- C5 counterexample: a secrets file that provides both keys as empty
strings is read successfully, so the falsy-key check (which lives only in
the `except` branch) never runs: both keys are falsy after the
configuration block, yet the program does not halt, contradicting the claim
as stated. -/
theorem C5_secrets_empty_key_counterexample :
    truthyOpt (some "") = false ∧
    configure (some ⟨some "", some ""⟩) none none ≠ ConfigOutcome.halted ∧
    configure (some ⟨some "", some ""⟩) none none = ConfigOutcome.keys "" "" :=
  ⟨rfl, by decide, rfl⟩

/-- C5 amended: the configuration halts the page exactly when the secrets
lookup raises (missing file or missing key) AND either environment key is
falsy (absent or empty); a falsy key delivered by a successful secrets
lookup is used unchecked.  This remains the code's only `st.stop()`. -/
theorem C5_halting_characterization (secrets : Option SecretsFile)
    (envW envO : Option String) :
    configure secrets envW envO = ConfigOutcome.halted ↔
      secretsLookupFails secrets = true ∧
        (truthyOpt envW = false ∨ truthyOpt envO = false) := by
  have henv : envFallback envW envO = ConfigOutcome.halted ↔
      (truthyOpt envW = false ∨ truthyOpt envO = false) := by
    unfold envFallback
    cases truthyOpt envW <;> cases truthyOpt envO <;> simp
  rcases secrets with _ | ⟨w, o⟩
  · simpa [configure, secretsLookupFails] using henv
  · rcases w with _ | w <;> rcases o with _ | o <;>
      simp [configure, secretsLookupFails, henv]

/-- C6: every retrieval function is memoized with a fixed per-function TTL
in the 5-to-60-minute range (300 s for `geocode`, `get_weather_current`,
`get_weather_forecast`; 3600 s for `fetch_typhoon_tracks`); through the
TTL-cache model, a second call with identical arguments within the window
returns the stored object without fetching, and a call at or after expiry
fetches anew. -/
theorem C6_cache_ttl_behavior :
    (geocode_ttl = 300 ∧ get_weather_current_ttl = 300 ∧
     get_weather_forecast_ttl = 300 ∧ fetch_typhoon_tracks_ttl = 3600 ∧
     5 * 60 ≤ geocode_ttl ∧ geocode_ttl ≤ 60 * 60 ∧
     5 * 60 ≤ fetch_typhoon_tracks_ttl ∧ fetch_typhoon_tracks_ttl ≤ 60 * 60) ∧
    ∀ {κ α : Type} [DecidableEq κ] (ttl : ℕ) (fetch : κ → α)
      (c : Cache κ α) (k : κ) (t t2 : ℕ), c k = none →
      (cachedCall ttl fetch c k t).2.1 = true ∧
      (t2 - t < ttl →
        cachedCall ttl fetch (cachedCall ttl fetch c k t).2.2 k t2 =
          ((cachedCall ttl fetch c k t).1, false,
           (cachedCall ttl fetch c k t).2.2)) ∧
      (ttl ≤ t2 - t →
        (cachedCall ttl fetch (cachedCall ttl fetch c k t).2.2 k t2).2.1 =
          true ∧
        (cachedCall ttl fetch (cachedCall ttl fetch c k t).2.2 k t2).1 =
          fetch k) := by
  refine ⟨⟨rfl, rfl, rfl, rfl, by norm_num [geocode_ttl],
    by norm_num [geocode_ttl], by norm_num [fetch_typhoon_tracks_ttl],
    by norm_num [fetch_typhoon_tracks_ttl]⟩, ?_⟩
  intro κ α inst ttl fetch c k t t2 hmiss
  have h1 : cachedCall ttl fetch c k t =
      (fetch k, true, fun k2 => if k2 = k then some ⟨fetch k, t⟩ else c k2) := by
    simp [cachedCall, hmiss]
  refine ⟨by rw [h1], ?_, ?_⟩
  · intro hfresh
    rw [h1]
    simp [cachedCall, hfresh]
  · intro hexp
    have hnot : ¬ (t2 - t < ttl) := by omega
    rw [h1]
    simp [cachedCall, hnot]

/-- Witness for C6: concrete cold-miss at time 100, hit at 250 (within the
300 s window), refetch at 500 (past expiry). -/
theorem C6_cache_ttl_behavior_witness :
    (cachedCall 300 (fun _ : ℕ => 7)
      (fun _ : ℕ => (none : Option (CacheEntry ℕ))) 0 100).2.1 = true ∧
    (cachedCall 300 (fun _ : ℕ => 7)
      (cachedCall 300 (fun _ : ℕ => 7) (fun _ : ℕ => none) 0 100).2.2
      0 250).2.1 = false ∧
    (cachedCall 300 (fun _ : ℕ => 7)
      (cachedCall 300 (fun _ : ℕ => 7) (fun _ : ℕ => none) 0 100).2.2
      0 500).2.1 = true := by
  have h := C6_cache_ttl_behavior.2 300 (fun _ : ℕ => 7)
    (fun _ : ℕ => none) 0 100 250 rfl
  have h2 := C6_cache_ttl_behavior.2 300 (fun _ : ℕ => 7)
    (fun _ : ℕ => none) 0 100 500 rfl
  refine ⟨h.1, ?_, (h2.2.2 (by norm_num)).1⟩
  rw [h.2.1 (by norm_num)]

/-- C7 counterexample: `fetch_typhoon_tracks`'s exception handler is a bare
`return []` — at a concrete failing request it emits NO user-visible
message, contradicting the claim that every retrieval function's handler
emits one. -/
theorem C7_typhoon_silent_counterexample :
    (fetch_typhoon_tracks (Except.error "timed out")).2 = [] :=
  rfl

/-- C7 amended: `geocode`, `get_weather_current` and `get_weather_forecast`
emit exactly one inline error message in their exception handlers before
returning their defaults, but `fetch_typhoon_tracks` substitutes `[]`
silently, with no user-visible message. -/
theorem C7_error_surfacing_amended (e : String) :
    (geocode (Except.error e)).2 = ["Geocoding error: " ++ e] ∧
    (get_weather_current (Except.error e)).2 = ["Weather API error: " ++ e] ∧
    (get_weather_forecast (Except.error e)).2 = ["Weather API error: " ++ e] ∧
    (fetch_typhoon_tracks (Except.error e)).2 = [] :=
  ⟨rfl, rfl, rfl, rfl⟩

/-- C8: evaluating the hourly rendering path at a truthy forecast response
that lacks the `forecast`/`forecastday` structure: `hourly_data` is empty,
`pd.DataFrame([])` has no columns, and `df["time"]` raises `KeyError`
instead of rendering a placeholder. -/
theorem C8_hourly_empty_forecast_raises :
    render_hourly (some ⟨some ⟨some "Manila", none, none⟩, none⟩) =
      Except.error "KeyError: time" :=
  rfl

/-- C9: `format_wind_direction` is total: for every rational input, the
computed index `int((degrees + 11.25) / 22.5) % 16` lies in [0, 15], so the
list indexing always succeeds and the result is one of the 16 labels. -/
theorem C9_wind_direction_total (d : ℚ) :
    0 ≤ windIndex d ∧ windIndex d ≤ 15 ∧
    format_wind_direction d ∈ directions := by
  have hnn : 0 ≤ windIndex d := Int.emod_nonneg _ (by norm_num)
  have hlt : windIndex d < 16 := Int.emod_lt_of_pos _ (by norm_num)
  have hlen : directions.length = 16 := rfl
  refine ⟨hnn, by omega, ?_⟩
  exact getD_mem_of_lt directions (windIndex d).toNat "" (by omega)

/-- C10: the selected geocoding result's coordinates are read by direct
subscripting with no fallback — a result object lacking the `latitude` key
makes the sidebar branch raise `KeyError` — in contrast with the `.get`
field lookups used elsewhere, which substitute their defaults
(`'N/A'` for a metric, `0` for an air-quality sub-index). -/
theorem C10_direct_subscript_keyerror :
    sidebar_geocode_branch [⟨some "Manila", some "NCR", none, some 120.9842⟩]
        "Manila, NCR" =
      GeoBranchResult.raised "KeyError: latitude" ∧
    metric_display (none : Option ℚ) = Sum.inr "N/A" ∧
    aqi_sub_display (none : Option ℚ) = 0 :=
  ⟨rfl, rfl, rfl⟩

end BantayKlima
